import Mathlib

/-!
The xdg shell-surface role of ozone-wayland.

A shallow embedding of `ozone/wayland/shell/xdg_shell_surface.cc`.

The C++ object is a record of its four data members plus the drawable surface
held by its base class.  A method is a computation over a context made of the
object, the process-wide collaborators (display connection, shell factory,
input device, proxy allocator) and the ordered list of calls the method has
made into code outside the file: protocol requests, the display flush and the
window-event sink.  A computation either returns or stops with a fatal
condition; in both cases the context reached so far is kept, so that the calls
made before a fatal condition stay visible.
-/

namespace ozonewayland

/-- Address of a protocol object or of a window.  A nullable C pointer is an
`Option Handle`, `none` being `NULL`. -/
abbrev Handle := Nat

/-- The two `XDG_SURFACE_STATE_*` enumerators named at the call sites of
`xdg_surface_request_change_state`. -/
inductive XdgSurfaceState
  | XDG_SURFACE_STATE_MAXIMIZED
  | XDG_SURFACE_STATE_FULLSCREEN
  deriving DecidableEq, Repr

/-- Values of `WaylandWindow::ShellType` as the `switch` of `UpdateShellSurface`
sees them: the four enumerators it names, and `other raw` for every value that
reaches the `default:` label. -/
inductive ShellType
  | TOPLEVEL
  | POPUP
  | FULLSCREEN
  | CUSTOM
  | other (raw : Nat)
  deriving DecidableEq, Repr

/-- A call made by this file into code outside it, with the arguments of the
call site.  Creating requests also record the object they returned. -/
inductive Call
  | xdg_shell_get_xdg_surface (shell : Option Handle) (surface : Option Handle)
      (ret : Option Handle)
  | xdg_surface_add_listener (xdg_surface : Option Handle) (data : Option Handle)
  | xdg_surface_request_change_state (xdg_surface : Option Handle)
      (state_type : XdgSurfaceState) (value : Bool) (serial : Nat)
  | xdg_shell_get_xdg_popup (shell : Option Handle) (surface : Option Handle)
      (parent : Option Handle) (seat : Option Handle) (serial : Nat)
      (x : Nat) (y : Nat) (flags : Nat) (ret : Option Handle)
  | xdg_popup_add_listener (xdg_popup : Option Handle) (data : Option Handle)
  | xdg_surface_set_title (xdg_surface : Option Handle) (title : List Nat)
  | xdg_surface_set_minimized (xdg_surface : Option Handle)
  | xdg_surface_ack_change_state (xdg_surface : Option Handle)
      (state : Nat) (value : Nat) (serial : Nat)
  | xdg_surface_destroy (xdg_surface : Handle)
  | xdg_popup_destroy (xdg_popup : Handle)
  | FlushDisplay
  | WindowResized (data : Option Handle) (width : Int) (height : Int)
  | WindowActivated (data : Option Handle)
  | PopupDone
  deriving DecidableEq, Repr

/-- Protocol requests: the calls addressed to the compositor. -/
def Call.isRequest : Call → Bool
  | .xdg_shell_get_xdg_surface _ _ _ => true
  | .xdg_surface_add_listener _ _ => false
  | .xdg_surface_request_change_state _ _ _ _ => true
  | .xdg_shell_get_xdg_popup _ _ _ _ _ _ _ _ _ => true
  | .xdg_popup_add_listener _ _ => false
  | .xdg_surface_set_title _ _ => true
  | .xdg_surface_set_minimized _ => true
  | .xdg_surface_ack_change_state _ _ _ _ => true
  | .xdg_surface_destroy _ => true
  | .xdg_popup_destroy _ => true
  | .FlushDisplay => false
  | .WindowResized _ _ _ => false
  | .WindowActivated _ => false
  | .PopupDone => false

/-- Calls into the window-event sink (`WindowResized`, `WindowActivated`,
`PopupDone` of the shell-surface base). -/
def Call.isSink : Call → Bool
  | .WindowResized _ _ _ => true
  | .WindowActivated _ => true
  | .PopupDone => true
  | _ => false

/-- State-change requests. -/
def Call.isChangeState : Call → Bool
  | .xdg_surface_request_change_state _ _ _ _ => true
  | _ => false

/-- Popup-creating requests. -/
def Call.isGetPopup : Call → Bool
  | .xdg_shell_get_xdg_popup _ _ _ _ _ _ _ _ _ => true
  | _ => false

/-- Fatal conditions: a failed `DCHECK`, a reached `NOTREACHED` with the items
streamed into it, and a member access through a null pointer. -/
inductive Fatal
  | DCHECK (condition : String)
  | NOTREACHED (text : String) (type : ShellType)
  | null_dereference (pointer : String)
  deriving DecidableEq, Repr

/-- Base class part of the object: the drawable surface behind
`GetWLSurface()`. -/
structure WaylandShellSurface where
  surface_ : Option Handle
  deriving DecidableEq, Repr

/-- Data members of `XDGShellSurface`. -/
structure XDGShellSurface extends WaylandShellSurface where
  xdg_surface_ : Option Handle
  xdg_popup_ : Option Handle
  maximized_ : Bool
  minimized_ : Bool
  deriving DecidableEq, Repr

/-- What `WaylandInputDevice::GetInputSeat()` returns. -/
structure WaylandInputDevice where
  input_seat : Option Handle
  deriving DecidableEq, Repr

/-- What `WaylandShell::GetXDGShell()` returns. -/
structure WaylandShell where
  xdg_shell : Option Handle
  deriving DecidableEq, Repr

/-- The display connection: `GetShell()`, `PrimaryInput()`, `GetSerial()`. -/
structure WaylandDisplay where
  shell : Option WaylandShell
  primary_input : Option WaylandInputDevice
  serial : Nat
  deriving DecidableEq, Repr

/-- Collaborators outside the object: `WaylandDisplay::GetInstance()` and the
objects the protocol library hands out on the next creating requests (`NULL`
once the list is used up). -/
structure World where
  display : Option WaylandDisplay
  proxies : List (Option Handle)
  deriving DecidableEq, Repr

/-- Everything a method can read or change. -/
structure Ctx where
  self : XDGShellSurface
  world : World
  trace : List Call
  deriving DecidableEq, Repr

/-- A method body: from a context to the value returned or the fatal condition
that stopped it, and the context reached. -/
def M (α : Type) : Type := Ctx → Except Fatal α × Ctx

/-- Return without effect. -/
def M.pure {α : Type} (a : α) : M α := fun k => (.ok a, k)

/-- Sequencing; a fatal condition ends the computation. -/
def M.bind {α β : Type} (m : M α) (f : α → M β) : M β := fun k =>
  match m k with
  | (.ok a, k1) => f a k1
  | (.error e, k1) => (.error e, k1)

instance : Monad M where
  pure := M.pure
  bind := M.bind

/-- Stop with a fatal condition. -/
def abort {α : Type} (e : Fatal) : M α := fun k => (.error e, k)

/-- Record a call into outside code. -/
def emit (c : Call) : M Unit := fun k => (.ok (), { k with trace := k.trace ++ [c] })

/-- Read the object. -/
def this : M XDGShellSurface := fun k => (.ok k.self, k)

/-- Assign to data members of the object. -/
def assign (f : XDGShellSurface → XDGShellSurface) : M Unit :=
  fun k => (.ok (), { k with self := f k.self })

/-- Follow a pointer for a member access. -/
def deref {α : Type} (p : Option α) (pointer : String) : M α :=
  match p with
  | some a => M.pure a
  | none => abort (.null_dereference pointer)

/-- Modelled from the spec: the `DCHECK` of `base/logging.h`, absent from the
sources; a violated contract is enforced by assertion and termination. -/
def DCHECK (condition : Bool) (text : String) : M Unit :=
  if condition then M.pure () else abort (.DCHECK text)

/-- Modelled from the spec: the `NOTREACHED` of `base/logging.h`, absent from
the sources; a fatal assertion carrying the streamed diagnostic. -/
def NOTREACHED (text : String) (type : ShellType) : M Unit :=
  abort (.NOTREACHED text type)

/-- The static `WaylandDisplay::GetInstance()`. -/
def WaylandDisplay.GetInstance : M (Option WaylandDisplay) :=
  fun k => (.ok k.world.display, k)

/-- The object returned by the next creating request. -/
def new_proxy : M (Option Handle) := fun k =>
  match k.world.proxies with
  | [] => (.ok none, k)
  | p :: rest => (.ok p, { k with world := { k.world with proxies := rest } })

/-- The inherited `GetWLSurface()`. -/
def GetWLSurface : M (Option Handle) := fun k => (.ok k.self.surface_, k)

/-- The call `WaylandShellSurface::FlushDisplay()`. -/
def WaylandShellSurface.FlushDisplay : M Unit := emit .FlushDisplay

/-- The call `WaylandShellSurface::WindowResized(data, width, height)`. -/
def WaylandShellSurface.WindowResized (data : Option Handle) (width height : Int) : M Unit :=
  emit (.WindowResized data width height)

/-- The call `WaylandShellSurface::WindowActivated(data)`. -/
def WaylandShellSurface.WindowActivated (data : Option Handle) : M Unit :=
  emit (.WindowActivated data)

/-- The call `WaylandShellSurface::PopupDone()`. -/
def WaylandShellSurface.PopupDone : M Unit := emit .PopupDone

/-- The constructor: both handles null, both latches false. -/
def XDGShellSurface.new (base : WaylandShellSurface) : XDGShellSurface :=
  { toWaylandShellSurface := base
    xdg_surface_ := none
    xdg_popup_ := none
    maximized_ := false
    minimized_ := false }

/-- The destructor. -/
def XDGShellSurface.destroy : M Unit := do
  match (← this).xdg_surface_ with
  | some h => emit (.xdg_surface_destroy h)
  | none => pure ()
  match (← this).xdg_popup_ with
  | some h => emit (.xdg_popup_destroy h)
  | none => pure ()

/-- `XDGShellSurface::InitializeShellSurface(window)`. -/
def InitializeShellSurface (window : Option Handle) : M Unit := do
  DCHECK (← this).xdg_surface_.isNone "!xdg_surface_"
  let display ← WaylandDisplay.GetInstance
  DCHECK display.isSome "display"
  let shell := (← deref (← WaylandDisplay.GetInstance) "WaylandDisplay::GetInstance()").shell
  DCHECK (match shell with
    | some sh => sh.xdg_shell.isSome
    | none => false) "shell && shell->GetXDGShell()"
  let xdg_shell := (← deref shell "shell").xdg_shell
  let surface ← GetWLSurface
  let ret ← new_proxy
  emit (.xdg_shell_get_xdg_surface xdg_shell surface ret)
  assign fun s => { s with xdg_surface_ := ret }
  emit (.xdg_surface_add_listener (← this).xdg_surface_ window)
  DCHECK (← this).xdg_surface_.isSome "xdg_surface_"

/-- `XDGShellSurface::UpdateShellSurface(type, shell_parent, x, y)`. -/
def UpdateShellSurface (type : ShellType) (shell_parent : Option WaylandShellSurface)
    (x y : Nat) : M Unit := do
  match type with
  | .TOPLEVEL =>
    if (← this).maximized_ then
      emit (.xdg_surface_request_change_state (← this).xdg_surface_
        .XDG_SURFACE_STATE_MAXIMIZED false 0)
      assign fun s => { s with maximized_ := false }
  | .POPUP =>
    let display ← deref (← WaylandDisplay.GetInstance) "display"
    let input_device := display.primary_input
    let surface ← GetWLSurface
    let parent_surface := (← deref shell_parent "shell_parent").surface_
    let xdg_shell := (← deref display.shell "display->GetShell()").xdg_shell
    let seat := (← deref input_device "input_device").input_seat
    let serial := display.serial
    let ret ← new_proxy
    emit (.xdg_shell_get_xdg_popup xdg_shell surface parent_surface seat serial x y 0 ret)
    assign fun s => { s with xdg_popup_ := ret }
    emit (.xdg_popup_add_listener (← this).xdg_popup_ none)
    DCHECK (← this).xdg_popup_.isSome "xdg_popup_"
  | .FULLSCREEN =>
    emit (.xdg_surface_request_change_state (← this).xdg_surface_
      .XDG_SURFACE_STATE_FULLSCREEN true 0)
  | .CUSTOM =>
    NOTREACHED "Unsupported shell type: " type
  | .other _ =>
    pure ()
  WaylandShellSurface.FlushDisplay

/-- `XDGShellSurface::SetWindowTitle(title)`; the text handed to the request is
the UTF-8 transcoding of the UTF-16 `title`, recorded by the title it is the
transcoding of. -/
def SetWindowTitle (title : List Nat) : M Unit := do
  emit (.xdg_surface_set_title (← this).xdg_surface_ title)
  WaylandShellSurface.FlushDisplay

/-- `XDGShellSurface::Maximize()`. -/
def Maximize : M Unit := do
  emit (.xdg_surface_request_change_state (← this).xdg_surface_
    .XDG_SURFACE_STATE_MAXIMIZED true 0)
  assign fun s => { s with maximized_ := true }
  WaylandShellSurface.FlushDisplay

/-- `XDGShellSurface::Minimize()`. -/
def Minimize : M Unit := do
  emit (.xdg_surface_set_minimized (← this).xdg_surface_)
  assign fun s => { s with minimized_ := true }

/-- `XDGShellSurface::Unminimize()`. -/
def Unminimize : M Unit := do
  assign fun s => { s with minimized_ := false }

/-- `XDGShellSurface::IsMinimized()`. -/
def IsMinimized : M Bool := do
  return (← this).minimized_

/-- The static `XDGShellSurface::HandleConfigure`. -/
def HandleConfigure (data : Option Handle) (xdg_surface : Option Handle)
    (width height : Int) : M Unit := do
  let _ := xdg_surface
  WaylandShellSurface.WindowResized data width height

/-- The static `XDGShellSurface::HandleChangeState`. -/
def HandleChangeState (data : Option Handle) (xdg_surface : Option Handle)
    (state value serial : Nat) : M Unit := do
  let _ := data
  emit (.xdg_surface_ack_change_state xdg_surface state value serial)

/-- The static `XDGShellSurface::HandleActivate`. -/
def HandleActivate (data : Option Handle) (xdg_surface : Option Handle) : M Unit := do
  let _ := xdg_surface
  WaylandShellSurface.WindowActivated data

/-- The static `XDGShellSurface::HandleDeactivate`. -/
def HandleDeactivate (data : Option Handle) (xdg_surface : Option Handle) : M Unit := do
  let _ := (data, xdg_surface)
  pure ()

/-- The static `XDGShellSurface::HandleDelete`. -/
def HandleDelete (data : Option Handle) (xdg_surface : Option Handle) : M Unit := do
  let _ := (data, xdg_surface)
  pure ()

/-- The static `XDGShellSurface::HandlePopupPopupDone`. -/
def HandlePopupPopupDone (data : Option Handle) (xdg_popup : Option Handle)
    (serial : Nat) : M Unit := do
  let _ := (data, xdg_popup, serial)
  WaylandShellSurface.PopupDone

/-- One thing that happens to a role: a method call by the window layer, a
callback from the transport, or the destruction of the object. -/
inductive Op
  | InitializeShellSurface (window : Option Handle)
  | UpdateShellSurface (type : ShellType) (shell_parent : Option WaylandShellSurface)
      (x y : Nat)
  | SetWindowTitle (title : List Nat)
  | Maximize
  | Minimize
  | Unminimize
  | IsMinimized
  | HandleConfigure (data xdg_surface : Option Handle) (width height : Int)
  | HandleChangeState (data xdg_surface : Option Handle) (state value serial : Nat)
  | HandleActivate (data xdg_surface : Option Handle)
  | HandleDeactivate (data xdg_surface : Option Handle)
  | HandleDelete (data xdg_surface : Option Handle)
  | HandlePopupPopupDone (data xdg_popup : Option Handle) (serial : Nat)
  | destroy
  deriving DecidableEq, Repr

/-- Perform one operation. -/
def exec : Op → M Unit
  | .InitializeShellSurface window => InitializeShellSurface window
  | .UpdateShellSurface type shell_parent x y => UpdateShellSurface type shell_parent x y
  | .SetWindowTitle title => SetWindowTitle title
  | .Maximize => Maximize
  | .Minimize => Minimize
  | .Unminimize => Unminimize
  | .IsMinimized => do
    let _ ← IsMinimized
    pure ()
  | .HandleConfigure data xdg_surface width height =>
    HandleConfigure data xdg_surface width height
  | .HandleChangeState data xdg_surface state value serial =>
    HandleChangeState data xdg_surface state value serial
  | .HandleActivate data xdg_surface => HandleActivate data xdg_surface
  | .HandleDeactivate data xdg_surface => HandleDeactivate data xdg_surface
  | .HandleDelete data xdg_surface => HandleDelete data xdg_surface
  | .HandlePopupPopupDone data xdg_popup serial => HandlePopupPopupDone data xdg_popup serial
  | .destroy => XDGShellSurface.destroy

/-- Perform operations one after the other; a fatal condition ends the run. -/
def run : List Op → M Unit
  | [] => pure ()
  | op :: rest => do
    exec op
    run rest

/-- Context of a method called on object `s` with collaborators `w`, before it
has made any call. -/
def enter (s : XDGShellSurface) (w : World) : Ctx :=
  { self := s, world := w, trace := [] }

/-- Whether a computation returned. -/
def returned {α : Type} (r : Except Fatal α × Ctx) : Bool :=
  match r.1 with
  | .ok _ => true
  | .error _ => false

/-- The fatal condition a computation stopped with, if any. -/
def fatal {α : Type} (r : Except Fatal α × Ctx) : Option Fatal :=
  match r.1 with
  | .ok _ => none
  | .error e => some e


/-- A display connection with shell factory 1, seat 2 and current serial 77,
about to hand out the objects of `l`. -/
def sampleWorld (l : List (Option Handle)) : World :=
  { display := some { shell := some { xdg_shell := some 1 }
                      primary_input := some { input_seat := some 2 }
                      serial := 77 }
    proxies := l }

/-- A role on drawable surface 5 with the given handles and both latches
false. -/
def sampleRole (a b : Option Handle) : XDGShellSurface :=
  { surface_ := some 5
    xdg_surface_ := a
    xdg_popup_ := b
    maximized_ := false
    minimized_ := false }

/-- The run of the teardown example: establish the role, request the popup
role twice, destroy the object. -/
def popupTwice : List Op :=
  [.InitializeShellSurface (some 100),
   .UpdateShellSurface .POPUP (some { surface_ := some 6 }) 10 20,
   .UpdateShellSurface .POPUP (some { surface_ := some 6 }) 10 20,
   .destroy]

/-! ## Closed forms of the straight-line methods -/

/-- The empty run returns at once. -/
theorem run_nil (k : Ctx) : run [] k = (.ok (), k) := rfl

/-- A run whose first operation returns goes on from the context it reached. -/
theorem run_cons_ok (op : Op) (rest : List Op) (k k1 : Ctx)
    (h : exec op k = (.ok (), k1)) : run (op :: rest) k = run rest k1 := by
  simp [run, bind, M.bind, h]

/-- `Maximize` from any context: one request, the latch set, one flush. -/
theorem Maximize_eq (k : Ctx) :
    Maximize k = (.ok (), { self := { k.self with maximized_ := true }
                            world := k.world
                            trace := k.trace ++ [.xdg_surface_request_change_state
                              k.self.xdg_surface_ .XDG_SURFACE_STATE_MAXIMIZED true 0,
                              .FlushDisplay] }) := by
  simp [Maximize, bind, M.bind, emit, this, assign, WaylandShellSurface.FlushDisplay]

/-- Any positive number of `Maximize` calls returns with the latch set and
nothing else of the object or its collaborators changed. -/
theorem run_Maximize (n : Nat) (k : Ctx) :
    returned (run (List.replicate (n + 1) Op.Maximize) k) = true ∧
    (run (List.replicate (n + 1) Op.Maximize) k).2.self
      = { k.self with maximized_ := true } ∧
    (run (List.replicate (n + 1) Op.Maximize) k).2.world = k.world := by
  induction n generalizing k with
  | zero =>
    simp [List.replicate, run, exec, bind, M.bind, Maximize_eq, pure, M.pure, returned]
  | succ m ih =>
    have h := ih { self := { k.self with maximized_ := true }
                   world := k.world
                   trace := k.trace ++ [.xdg_surface_request_change_state
                     k.self.xdg_surface_ .XDG_SURFACE_STATE_MAXIMIZED true 0,
                     .FlushDisplay] }
    have e : run (List.replicate (m + 1 + 1) Op.Maximize) k
        = run (List.replicate (m + 1) Op.Maximize)
            { self := { k.self with maximized_ := true }
              world := k.world
              trace := k.trace ++ [.xdg_surface_request_change_state
                k.self.xdg_surface_ .XDG_SURFACE_STATE_MAXIMIZED true 0,
                .FlushDisplay] } := by
      conv => lhs; rw [List.replicate_succ]
      simp only [run, exec, bind, M.bind, Maximize_eq]
    rw [e]
    exact h

/-! ## The claims -/

/-- C1: on an established role, after any positive number of `Maximize()` calls,
one `UpdateShellSurface(TOPLEVEL, parent, x, y)` returns with the maximize latch
false, having made exactly one state-change request,
`request_change_state(MAXIMIZED, false, 0)` on the surface handle, followed by
the flush; a further `UpdateShellSurface(TOPLEVEL, ...)` right after makes no
state-change request. -/
theorem maximize_then_toplevel_clears_latch
    (s : XDGShellSurface) (w : World) (h : Handle) (n : Nat)
    (parent parent2 : Option WaylandShellSurface) (x y x2 y2 : Nat)
    (hs : s.xdg_surface_ = some h) (hn : 1 ≤ n) :
    let k := run (List.replicate n Op.Maximize) (enter s w)
    let r := UpdateShellSurface .TOPLEVEL parent x y (enter k.2.self k.2.world)
    let r2 := UpdateShellSurface .TOPLEVEL parent2 x2 y2 (enter r.2.self r.2.world)
    returned k = true ∧ returned r = true ∧ r.2.self.maximized_ = false ∧
    r.2.trace = [.xdg_surface_request_change_state (some h)
                   .XDG_SURFACE_STATE_MAXIMIZED false 0, .FlushDisplay] ∧
    r.2.trace.filter Call.isChangeState
      = [.xdg_surface_request_change_state (some h)
           .XDG_SURFACE_STATE_MAXIMIZED false 0] ∧
    returned r2 = true ∧ r2.2.trace.filter Call.isChangeState = [] ∧
    r2.2.self.maximized_ = false := by
  obtain ⟨m, rfl⟩ : ∃ m, n = m + 1 := ⟨n - 1, by omega⟩
  obtain ⟨h1, h2, h3⟩ := run_Maximize m (enter s w)
  intro k r r2
  have hk : k.2.self = { s with maximized_ := true } := h2
  have hw : k.2.world = w := h3
  have hr : r = (.ok (), { self := { s with maximized_ := false }
                           world := w
                           trace := [.xdg_surface_request_change_state (some h)
                             .XDG_SURFACE_STATE_MAXIMIZED false 0, .FlushDisplay] }) := by
    show UpdateShellSurface .TOPLEVEL parent x y (enter k.2.self k.2.world) = _
    rw [hk, hw]
    simp [UpdateShellSurface, bind, M.bind, emit, this, assign, enter, hs,
      WaylandShellSurface.FlushDisplay]
  have hr2 : r2 = (.ok (), { self := { s with maximized_ := false }
                             world := w
                             trace := [.FlushDisplay] }) := by
    show UpdateShellSurface .TOPLEVEL parent2 x2 y2 (enter r.2.self r.2.world) = _
    rw [hr]
    simp [UpdateShellSurface, bind, M.bind, emit, this, assign, enter, pure, M.pure,
      WaylandShellSurface.FlushDisplay]
  refine ⟨h1, ?_, ?_, ?_, ?_, ?_, ?_, ?_⟩
  · rw [hr]; rfl
  · rw [hr]
  · rw [hr]
  · rw [hr]; rfl
  · rw [hr2]; rfl
  · rw [hr2]; rfl
  · rw [hr2]

/-- Witness of C1: an initialised role, `Maximize()` three times. -/
theorem maximize_then_toplevel_clears_latch_witness :
    let s : XDGShellSurface :=
      { surface_ := some 5, xdg_surface_ := some 10, xdg_popup_ := none,
        maximized_ := false, minimized_ := false }
    let w : World := { display := none, proxies := [] }
    let k := run (List.replicate 3 Op.Maximize) (enter s w)
    let r := UpdateShellSurface .TOPLEVEL none 0 0 (enter k.2.self k.2.world)
    let r2 := UpdateShellSurface .TOPLEVEL none 1 2 (enter r.2.self r.2.world)
    returned k = true ∧ returned r = true ∧ r.2.self.maximized_ = false ∧
    r.2.trace = [.xdg_surface_request_change_state (some 10)
                   .XDG_SURFACE_STATE_MAXIMIZED false 0, .FlushDisplay] ∧
    r.2.trace.filter Call.isChangeState
      = [.xdg_surface_request_change_state (some 10)
           .XDG_SURFACE_STATE_MAXIMIZED false 0] ∧
    returned r2 = true ∧ r2.2.trace.filter Call.isChangeState = [] ∧
    r2.2.self.maximized_ = false :=
  maximize_then_toplevel_clears_latch
    { surface_ := some 5, xdg_surface_ := some 10, xdg_popup_ := none,
      maximized_ := false, minimized_ := false }
    { display := none, proxies := [] } 10 3 none none 0 0 1 2 rfl (by decide)

/-- C2: `IsMinimized()` returns the minimized flag; after any operation the flag
is true if the operation was `Minimize()`, false if it was `Unminimize()`, and
what it was before for every other operation (methods, the six callback
handlers, also when the operation stops on a fatal condition); `Minimize()` and
`Unminimize()` always return; a freshly constructed role reports false. -/
theorem minimized_flag_only_changed_by_minimize_unminimize :
    (∀ k : Ctx, IsMinimized k = (.ok k.self.minimized_, k)) ∧
    (∀ k : Ctx, returned (Minimize k) = true ∧
      (IsMinimized (Minimize k).2).1 = .ok true) ∧
    (∀ k : Ctx, returned (Unminimize k) = true ∧
      (IsMinimized (Unminimize k).2).1 = .ok false) ∧
    (∀ (op : Op) (k : Ctx), (exec op k).2.self.minimized_ =
      match op with
      | .Minimize => true
      | .Unminimize => false
      | _ => k.self.minimized_) ∧
    (∀ (base : WaylandShellSurface) (w : World),
      (IsMinimized (enter (XDGShellSurface.new base) w)).1 = .ok false) := by
  refine ⟨fun k => rfl, fun k => ⟨rfl, rfl⟩, fun k => ⟨rfl, rfl⟩, ?_, fun _ _ => rfl⟩
  intro op k
  obtain ⟨⟨⟨sf⟩, xs, xp, mx, mn⟩, ⟨dsp, prox⟩, tr⟩ := k
  cases op with
  | InitializeShellSurface window =>
    cases xs with
    | some a => rfl
    | none =>
      cases dsp with
      | none => rfl
      | some d =>
        obtain ⟨sh, inp, ser⟩ := d
        cases sh with
        | none => rfl
        | some sh =>
          obtain ⟨xsh⟩ := sh
          cases xsh with
          | none => rfl
          | some b =>
            cases prox with
            | nil => rfl
            | cons p rest => cases p <;> rfl
  | UpdateShellSurface type shell_parent x y =>
    cases type with
    | TOPLEVEL => cases mx <;> rfl
    | FULLSCREEN => rfl
    | CUSTOM => rfl
    | other v => rfl
    | POPUP =>
      cases dsp with
      | none => rfl
      | some d =>
        obtain ⟨sh, inp, ser⟩ := d
        cases shell_parent with
        | none => rfl
        | some par =>
          cases sh with
          | none => rfl
          | some sh =>
            cases inp with
            | none => rfl
            | some dev =>
              cases prox with
              | nil => rfl
              | cons p rest => cases p <;> rfl
  | destroy => cases xs <;> cases xp <;> rfl
  | _ => rfl

/-- C3 fails as stated: on a never-initialised role `Maximize()` is not
rejected by a precondition check and does not refrain from the request: the
first thing it does is call the state-change request function with the null
surface handle as target, and it does not stop on an assertion. -/
theorem uninitialised_maximize_calls_request :
    (Maximize (enter (XDGShellSurface.new { surface_ := some 5 })
      { display := none, proxies := [] })).2.trace.head?
      = some (.xdg_surface_request_change_state none .XDG_SURFACE_STATE_MAXIMIZED true 0) ∧
    (Call.xdg_surface_request_change_state none
      .XDG_SURFACE_STATE_MAXIMIZED true 0).isRequest = true ∧
    (∀ c : String,
      fatal (Maximize (enter (XDGShellSurface.new { surface_ := some 5 })
        { display := none, proxies := [] })) ≠ some (.DCHECK c)) ∧
    (XDGShellSurface.new { surface_ := some 5 }).xdg_surface_ = none := by
  refine ⟨rfl, rfl, ?_, rfl⟩
  intro c h
  have e : fatal (Maximize (enter (XDGShellSurface.new { surface_ := some 5 })
      { display := none, proxies := [] })) = none := rfl
  rw [e] at h
  cases h

/-- C3 as amended: on a role whose surface handle is null, none of
`Maximize`, `Minimize`, `SetWindowTitle`, `UpdateShellSurface(FULLSCREEN)` and
`UpdateShellSurface(TOPLEVEL)` with the latch set is rejected by a precondition
check: none stops on an assertion, and the first call each makes is its request
function with the null handle as target (a toplevel update with the latch clear
makes no request, its first call is the flush).  `SetWindowTitle` and the
fullscreen update leave the object as it was, `Maximize` and the toplevel update
leave the minimized latch as it was, and `Minimize` leaves the maximize latch as
it was.  Nothing is stated about what follows the request call on the null
target. -/
theorem uninitialised_operations_call_request_on_null_handle
    (s : XDGShellSurface) (w : World) (title : List Nat)
    (parent : Option WaylandShellSurface) (x y : Nat)
    (hs : s.xdg_surface_ = none) :
    ((Maximize (enter s w)).2.trace.head?
        = some (.xdg_surface_request_change_state none .XDG_SURFACE_STATE_MAXIMIZED true 0) ∧
      (Minimize (enter s w)).2.trace.head? = some (.xdg_surface_set_minimized none) ∧
      (SetWindowTitle title (enter s w)).2.trace.head?
        = some (.xdg_surface_set_title none title) ∧
      (UpdateShellSurface .FULLSCREEN parent x y (enter s w)).2.trace.head?
        = some (.xdg_surface_request_change_state none
            .XDG_SURFACE_STATE_FULLSCREEN true 0) ∧
      (UpdateShellSurface .TOPLEVEL parent x y (enter s w)).2.trace.head?
        = some (if s.maximized_
            then .xdg_surface_request_change_state none .XDG_SURFACE_STATE_MAXIMIZED false 0
            else .FlushDisplay)) ∧
    (∀ c : String,
      fatal (Maximize (enter s w)) ≠ some (.DCHECK c) ∧
      fatal (Minimize (enter s w)) ≠ some (.DCHECK c) ∧
      fatal (SetWindowTitle title (enter s w)) ≠ some (.DCHECK c) ∧
      fatal (UpdateShellSurface .FULLSCREEN parent x y (enter s w)) ≠ some (.DCHECK c) ∧
      fatal (UpdateShellSurface .TOPLEVEL parent x y (enter s w)) ≠ some (.DCHECK c)) ∧
    ((SetWindowTitle title (enter s w)).2.self = s ∧
      (UpdateShellSurface .FULLSCREEN parent x y (enter s w)).2.self = s ∧
      (Maximize (enter s w)).2.self.minimized_ = s.minimized_ ∧
      (UpdateShellSurface .TOPLEVEL parent x y (enter s w)).2.self.minimized_
        = s.minimized_ ∧
      (Minimize (enter s w)).2.self.maximized_ = s.maximized_) := by
  obtain ⟨⟨sf⟩, xs, xp, mx, mn⟩ := s
  simp only at hs
  subst hs
  refine ⟨⟨rfl, rfl, rfl, rfl, ?_⟩, ?_, ⟨rfl, rfl, rfl, ?_, rfl⟩⟩
  · cases mx <;> rfl
  · intro c
    refine ⟨?_, ?_, ?_, ?_, ?_⟩
    · intro h
      have e : fatal (Maximize (enter (XDGShellSurface.mk ⟨sf⟩ none xp mx mn) w))
          = none := rfl
      rw [e] at h
      cases h
    · intro h
      have e : fatal (Minimize (enter (XDGShellSurface.mk ⟨sf⟩ none xp mx mn) w))
          = none := rfl
      rw [e] at h
      cases h
    · intro h
      have e : fatal (SetWindowTitle title
          (enter (XDGShellSurface.mk ⟨sf⟩ none xp mx mn) w)) = none := rfl
      rw [e] at h
      cases h
    · intro h
      have e : fatal (UpdateShellSurface .FULLSCREEN parent x y
          (enter (XDGShellSurface.mk ⟨sf⟩ none xp mx mn) w)) = none := rfl
      rw [e] at h
      cases h
    · intro h
      have e : fatal (UpdateShellSurface .TOPLEVEL parent x y
          (enter (XDGShellSurface.mk ⟨sf⟩ none xp mx mn) w)) = none := by
        cases mx <;> rfl
      rw [e] at h
      cases h
  · cases mx <;> rfl

/-- Witness of the amended C3: a freshly constructed role, never initialised. -/
theorem uninitialised_operations_call_request_on_null_handle_witness :
    (Minimize (enter (XDGShellSurface.new { surface_ := some 5 })
      { display := none, proxies := [] })).2.trace.head?
      = some (.xdg_surface_set_minimized none) :=
  (uninitialised_operations_call_request_on_null_handle
    (XDGShellSurface.new { surface_ := some 5 })
    { display := none, proxies := [] } [] none 0 0 rfl).1.2.1

/-- C4: from any context, `HandleConfigure(W, _, width, height)` returns having
made the single call `WindowResized(W, width, height)`, `HandleActivate(W, _)`
the single call `WindowActivated(W)`, and `HandleDeactivate` and `HandleDelete`
no call at all; the object and its collaborators are as before, and the one
call made is a sink call, not a protocol request. -/
theorem callbacks_translate_to_sink
    (W xdg_surface : Option Handle) (width height : Int) (k : Ctx) :
    HandleConfigure W xdg_surface width height k
      = (.ok (), { k with trace := k.trace ++ [.WindowResized W width height] }) ∧
    HandleActivate W xdg_surface k
      = (.ok (), { k with trace := k.trace ++ [.WindowActivated W] }) ∧
    HandleDeactivate W xdg_surface k = (.ok (), k) ∧
    HandleDelete W xdg_surface k = (.ok (), k) ∧
    (Call.WindowResized W width height).isSink = true ∧
    (Call.WindowResized W width height).isRequest = false ∧
    (Call.WindowActivated W).isSink = true ∧
    (Call.WindowActivated W).isRequest = false :=
  ⟨rfl, rfl, rfl, rfl, rfl, rfl, rfl, rfl⟩

/-- C5: from any context, `HandleChangeState(_, s, state, value, serial)` returns
having made the single call `ack_change_state(s, state, value, serial)`, a
protocol request and not a sink call; the object, both latches included, and
its collaborators are as before. -/
theorem change_state_is_acknowledged
    (data s : Option Handle) (state value serial : Nat) (k : Ctx) :
    HandleChangeState data s state value serial k
      = (.ok (), { k with trace := k.trace ++
          [.xdg_surface_ack_change_state s state value serial] }) ∧
    (Call.xdg_surface_ack_change_state s state value serial).isRequest = true ∧
    (Call.xdg_surface_ack_change_state s state value serial).isSink = false ∧
    (HandleChangeState data s state value serial k).2.self = k.self :=
  ⟨rfl, rfl, rfl, rfl⟩

/-- C6: with a display connection that has a shell and a primary input device,
`UpdateShellSurface(POPUP, P, x, y)` makes exactly one create-popup call, whose
arguments are the shell factory, the role's own drawable surface, the drawable
surface of `P`, the seat of the primary input device, the current serial, `x`
and `y` as given and flags 0; the object it returns is stored as the popup
handle and gets the popup listener with a null context, while the surface
handle and both latches stay as they were; the call returns (after the flush)
exactly when that object is not null.  From any context, `HandlePopupPopupDone`
with any arguments makes the single sink call `PopupDone()`, which carries no
window. -/
theorem popup_role_request
    (s : XDGShellSurface) (w : World) (d : WaylandDisplay) (sh : WaylandShell)
    (dev : WaylandInputDevice) (P : WaylandShellSurface) (x y : Nat)
    (data xdg_popup : Option Handle) (serial : Nat) (k : Ctx)
    (hd : w.display = some d) (hsh : d.shell = some sh)
    (hdev : d.primary_input = some dev) :
    let ret := w.proxies.headD none
    let r := UpdateShellSurface .POPUP (some P) x y (enter s w)
    r.2.trace.filter Call.isRequest
      = [.xdg_shell_get_xdg_popup sh.xdg_shell s.surface_ P.surface_ dev.input_seat
           d.serial x y 0 ret] ∧
    r.2.trace = [.xdg_shell_get_xdg_popup sh.xdg_shell s.surface_ P.surface_
                   dev.input_seat d.serial x y 0 ret,
                 .xdg_popup_add_listener ret none]
                ++ (if ret.isSome then [.FlushDisplay] else []) ∧
    r.2.self = { s with xdg_popup_ := ret } ∧
    r.2.self.xdg_surface_ = s.xdg_surface_ ∧
    r.2.self.maximized_ = s.maximized_ ∧
    r.2.self.minimized_ = s.minimized_ ∧
    r.2.world = { w with proxies := w.proxies.tail } ∧
    returned r = ret.isSome ∧
    HandlePopupPopupDone data xdg_popup serial k
      = (.ok (), { k with trace := k.trace ++ [.PopupDone] }) ∧
    Call.PopupDone.isSink = true := by
  obtain ⟨⟨sf⟩, xs, xp, mx, mn⟩ := s
  obtain ⟨dsp, prox⟩ := w
  obtain ⟨dsh, dinp, ser⟩ := d
  simp only at hd hsh hdev
  subst hd hsh hdev
  cases prox with
  | nil => exact ⟨rfl, rfl, rfl, rfl, rfl, rfl, rfl, rfl, rfl, rfl⟩
  | cons p rest =>
    cases p with
    | none => exact ⟨rfl, rfl, rfl, rfl, rfl, rfl, rfl, rfl, rfl, rfl⟩
    | some a => exact ⟨rfl, rfl, rfl, rfl, rfl, rfl, rfl, rfl, rfl, rfl⟩

/-- Witness of C6: parent surface 6 at offset (10, 20), serial 77. -/
theorem popup_role_request_witness :
    (UpdateShellSurface .POPUP (some { surface_ := some 6 }) 10 20
        (enter { surface_ := some 5, xdg_surface_ := some 10, xdg_popup_ := none,
                 maximized_ := false, minimized_ := false }
          { display := some { shell := some { xdg_shell := some 1 },
                              primary_input := some { input_seat := some 2 },
                              serial := 77 },
            proxies := [some 11] })).2.trace
      = [.xdg_shell_get_xdg_popup (some 1) (some 5) (some 6) (some 2) 77 10 20 0 (some 11),
         .xdg_popup_add_listener (some 11) none, .FlushDisplay] :=
  (popup_role_request
    { surface_ := some 5, xdg_surface_ := some 10, xdg_popup_ := none,
      maximized_ := false, minimized_ := false }
    { display := some { shell := some { xdg_shell := some 1 },
                        primary_input := some { input_seat := some 2 },
                        serial := 77 },
      proxies := [some 11] }
    { shell := some { xdg_shell := some 1 },
      primary_input := some { input_seat := some 2 }, serial := 77 }
    { xdg_shell := some 1 } { input_seat := some 2 } { surface_ := some 6 } 10 20
    none none 0 (enter (XDGShellSurface.new { surface_ := none })
      { display := none, proxies := [] }) rfl rfl rfl).2.1

/-- C7: the destructor of a role with both handles set makes exactly the two
calls `xdg_surface_destroy(surface handle)` then `xdg_popup_destroy(popup
handle)`; with one handle null it makes only the call for the other; with both
null, as on a never-initialised, never-popup role, it makes none; it always
returns. -/
theorem destructor_releases_surface_then_popup
    (base : WaylandShellSurface) (a b : Handle) (mx mn : Bool) (w : World) :
    (XDGShellSurface.destroy
        (enter (XDGShellSurface.mk base (some a) (some b) mx mn) w)).2.trace
      = [.xdg_surface_destroy a, .xdg_popup_destroy b] ∧
    (XDGShellSurface.destroy
        (enter (XDGShellSurface.mk base (some a) none mx mn) w)).2.trace
      = [.xdg_surface_destroy a] ∧
    (XDGShellSurface.destroy
        (enter (XDGShellSurface.mk base none (some b) mx mn) w)).2.trace
      = [.xdg_popup_destroy b] ∧
    (XDGShellSurface.destroy
        (enter (XDGShellSurface.mk base none none mx mn) w)).2.trace = [] ∧
    (XDGShellSurface.destroy (enter (XDGShellSurface.new base) w)).2.trace = [] ∧
    (∀ s : XDGShellSurface, returned (XDGShellSurface.destroy (enter s w)) = true) := by
  refine ⟨rfl, rfl, rfl, rfl, rfl, ?_⟩
  intro s
  obtain ⟨⟨sf⟩, xs, xp, mx, mn⟩ := s
  cases xs <;> cases xp <;> rfl

/-- C8 fails on the code: with `UpdateShellSurface(POPUP, ...)` called twice
before teardown, the run returns, popup handles 11 and 12 are both created, and
over the whole run handle 12 is destroyed once but handle 11 never. -/
theorem second_popup_leaks_first_handle :
    returned (run popupTwice (enter (XDGShellSurface.new { surface_ := some 5 })
      (sampleWorld [some 10, some 11, some 12]))) = true ∧
    (run popupTwice (enter (XDGShellSurface.new { surface_ := some 5 })
      (sampleWorld [some 10, some 11, some 12]))).2.trace
      = [.xdg_shell_get_xdg_surface (some 1) (some 5) (some 10),
         .xdg_surface_add_listener (some 10) (some 100),
         .xdg_shell_get_xdg_popup (some 1) (some 5) (some 6) (some 2) 77 10 20 0 (some 11),
         .xdg_popup_add_listener (some 11) none,
         .FlushDisplay,
         .xdg_shell_get_xdg_popup (some 1) (some 5) (some 6) (some 2) 77 10 20 0 (some 12),
         .xdg_popup_add_listener (some 12) none,
         .FlushDisplay,
         .xdg_surface_destroy 10,
         .xdg_popup_destroy 12] ∧
    (run popupTwice (enter (XDGShellSurface.new { surface_ := some 5 })
      (sampleWorld [some 10, some 11, some 12]))).2.trace.count (.xdg_popup_destroy 11) = 0 ∧
    (run popupTwice (enter (XDGShellSurface.new { surface_ := some 5 })
      (sampleWorld [some 10, some 11, some 12]))).2.trace.count (.xdg_popup_destroy 12) = 1 := by
  have h1 : exec (.InitializeShellSurface (some 100))
      (enter (XDGShellSurface.new { surface_ := some 5 })
        (sampleWorld [some 10, some 11, some 12]))
      = (.ok (), { self := sampleRole (some 10) none
                   world := sampleWorld [some 11, some 12]
                   trace := [.xdg_shell_get_xdg_surface (some 1) (some 5) (some 10),
                             .xdg_surface_add_listener (some 10) (some 100)] }) := rfl
  have h2 : ∀ (t : List Call) (a c : Handle) (b : Option Handle)
      (rest : List (Option Handle)),
      exec (.UpdateShellSurface .POPUP (some { surface_ := some 6 }) 10 20)
        { self := sampleRole (some a) b
          world := sampleWorld (some c :: rest)
          trace := t }
      = (.ok (), { self := sampleRole (some a) (some c)
                   world := sampleWorld rest
                   trace := t ++ [.xdg_shell_get_xdg_popup (some 1) (some 5) (some 6)
                                    (some 2) 77 10 20 0 (some c)]
                              ++ [.xdg_popup_add_listener (some c) none]
                              ++ [.FlushDisplay] }) := by
    intro t a c b rest
    rfl
  have h3 : ∀ (t : List Call) (a b : Handle) (w : World),
      exec .destroy { self := sampleRole (some a) (some b), world := w, trace := t }
      = (.ok (), { self := sampleRole (some a) (some b)
                   world := w
                   trace := t ++ [.xdg_surface_destroy a] ++ [.xdg_popup_destroy b] }) := by
    intro t a b w
    rfl
  have hr : run popupTwice (enter (XDGShellSurface.new { surface_ := some 5 })
      (sampleWorld [some 10, some 11, some 12]))
      = (.ok (), { self := sampleRole (some 10) (some 12)
                   world := sampleWorld []
                   trace := [.xdg_shell_get_xdg_surface (some 1) (some 5) (some 10),
                     .xdg_surface_add_listener (some 10) (some 100),
                     .xdg_shell_get_xdg_popup (some 1) (some 5) (some 6) (some 2) 77 10 20 0
                       (some 11),
                     .xdg_popup_add_listener (some 11) none,
                     .FlushDisplay,
                     .xdg_shell_get_xdg_popup (some 1) (some 5) (some 6) (some 2) 77 10 20 0
                       (some 12),
                     .xdg_popup_add_listener (some 12) none,
                     .FlushDisplay,
                     .xdg_surface_destroy 10,
                     .xdg_popup_destroy 12] }) := by
    unfold popupTwice
    rw [run_cons_ok _ _ _ _ h1, run_cons_ok _ _ _ _ (h2 _ _ _ _ _),
      run_cons_ok _ _ _ _ (h2 _ _ _ _ _), run_cons_ok _ _ _ _ (h3 _ _ _ _), run_nil]
    simp
  rw [hr]
  refine ⟨rfl, rfl, ?_, ?_⟩
  · simp [List.count_cons]
  · simp [List.count_cons]

/-- C9: `UpdateShellSurface` with kind `CUSTOM` stops on the fatal assertion
whose diagnostic is the text "Unsupported shell type: " followed by the kind,
having made no call at all and changed nothing of the object; with a kind that
is none of `TOPLEVEL`, `POPUP`, `FULLSCREEN`, `CUSTOM` it returns having made
only the flush, with the object, both handles and both latches, as before. -/
theorem custom_is_fatal_and_unrecognized_is_ignored
    (s : XDGShellSurface) (w : World) (parent : Option WaylandShellSurface)
    (x y raw : Nat) :
    UpdateShellSurface .CUSTOM parent x y (enter s w)
      = (.error (.NOTREACHED "Unsupported shell type: " .CUSTOM), enter s w) ∧
    (enter s w).trace = [] ∧
    UpdateShellSurface (.other raw) parent x y (enter s w)
      = (.ok (), { self := s, world := w, trace := [.FlushDisplay] }) ∧
    Call.FlushDisplay.isChangeState = false ∧
    Call.FlushDisplay.isGetPopup = false :=
  ⟨rfl, rfl, rfl, rfl, rfl⟩

/-- C10: every `UpdateShellSurface` call that returns has made exactly one
flush and made it last; the kinds `TOPLEVEL`, `FULLSCREEN` and the unrecognized
ones always return.  `Maximize` and `SetWindowTitle` make their one request and
then the flush, `Minimize` makes the minimize request and no flush, and
`Unminimize` makes no call. -/
theorem flush_is_last_effect :
    (∀ (s : XDGShellSurface) (w : World) (type : ShellType)
       (parent : Option WaylandShellSurface) (x y : Nat),
      returned (UpdateShellSurface type parent x y (enter s w)) = true →
        (UpdateShellSurface type parent x y (enter s w)).2.trace.getLast?
          = some .FlushDisplay ∧
        (UpdateShellSurface type parent x y (enter s w)).2.trace.count .FlushDisplay = 1) ∧
    (∀ (s : XDGShellSurface) (w : World) (parent : Option WaylandShellSurface)
       (x y raw : Nat),
      returned (UpdateShellSurface .TOPLEVEL parent x y (enter s w)) = true ∧
      returned (UpdateShellSurface .FULLSCREEN parent x y (enter s w)) = true ∧
      returned (UpdateShellSurface (.other raw) parent x y (enter s w)) = true) ∧
    (∀ (s : XDGShellSurface) (w : World) (title : List Nat),
      (Maximize (enter s w)).2.trace
        = [.xdg_surface_request_change_state s.xdg_surface_
             .XDG_SURFACE_STATE_MAXIMIZED true 0, .FlushDisplay] ∧
      (SetWindowTitle title (enter s w)).2.trace
        = [.xdg_surface_set_title s.xdg_surface_ title, .FlushDisplay] ∧
      (Minimize (enter s w)).2.trace = [.xdg_surface_set_minimized s.xdg_surface_] ∧
      (Unminimize (enter s w)).2.trace = [] ∧
      returned (Maximize (enter s w)) = true ∧
      returned (SetWindowTitle title (enter s w)) = true ∧
      returned (Minimize (enter s w)) = true ∧
      returned (Unminimize (enter s w)) = true) := by
  refine ⟨?_, ?_, fun s w title => ⟨rfl, rfl, rfl, rfl, rfl, rfl, rfl, rfl⟩⟩
  · intro s w type parent x y
    obtain ⟨⟨sf⟩, xs, xp, mx, mn⟩ := s
    obtain ⟨dsp, prox⟩ := w
    cases type with
    | TOPLEVEL => cases mx <;> exact fun _ => ⟨rfl, rfl⟩
    | FULLSCREEN => exact fun _ => ⟨rfl, rfl⟩
    | CUSTOM => exact fun h => (Bool.false_ne_true h).elim
    | other v => exact fun _ => ⟨rfl, rfl⟩
    | POPUP =>
      cases dsp with
      | none => exact fun h => (Bool.false_ne_true h).elim
      | some d =>
        obtain ⟨sh, inp, ser⟩ := d
        cases parent with
        | none => exact fun h => (Bool.false_ne_true h).elim
        | some par =>
          cases sh with
          | none => exact fun h => (Bool.false_ne_true h).elim
          | some sh =>
            cases inp with
            | none => exact fun h => (Bool.false_ne_true h).elim
            | some dev =>
              cases prox with
              | nil => exact fun h => (Bool.false_ne_true h).elim
              | cons p rest =>
                cases p with
                | none => exact fun h => (Bool.false_ne_true h).elim
                | some a => exact fun _ => ⟨rfl, rfl⟩
  · intro s w parent x y raw
    obtain ⟨⟨sf⟩, xs, xp, mx, mn⟩ := s
    cases mx <;> exact ⟨rfl, rfl, rfl⟩

/-- Witness of C10: a popup update that returns. -/
theorem flush_is_last_effect_witness :
    (UpdateShellSurface .POPUP (some { surface_ := some 6 }) 10 20
        (enter (XDGShellSurface.new { surface_ := some 5 })
          { display := some { shell := some { xdg_shell := some 1 },
                              primary_input := some { input_seat := some 2 },
                              serial := 77 },
            proxies := [some 11] })).2.trace.getLast? = some .FlushDisplay ∧
    (UpdateShellSurface .POPUP (some { surface_ := some 6 }) 10 20
        (enter (XDGShellSurface.new { surface_ := some 5 })
          { display := some { shell := some { xdg_shell := some 1 },
                              primary_input := some { input_seat := some 2 },
                              serial := 77 },
            proxies := [some 11] })).2.trace.count .FlushDisplay = 1 :=
  flush_is_last_effect.1 (XDGShellSurface.new { surface_ := some 5 })
    { display := some { shell := some { xdg_shell := some 1 },
                        primary_input := some { input_seat := some 2 },
                        serial := 77 },
      proxies := [some 11] }
    .POPUP (some { surface_ := some 6 }) 10 20 rfl

end ozonewayland
